import Mathlib

/-!
Shallow embedding of the YouTubeDownloader frontend controller
(`youtubedownload/frontend/app.js`) and proofs of its specified
properties.

Modelling conventions:

* JS numbers carried by status events are modelled as rationals (`ℚ`);
  `Math.round`, `Math.floor`, `%` and `toFixed(2)` are embedded with their
  ECMAScript rounding rules.
* The DOM state the script reads or writes is collected in a `UIState`
  record: the `hidden` class of the four sections, the text/attribute
  values the script assigns, the rendered history list, and the two
  module-level mutable variables (`currentVideoInfo`, `currentDownloadId`).
* Calls to host facilities (`fetch`, `setTimeout`) are modelled as emitted
  `Effect` values; handlers return the updated state together with the
  list of effects they issued, in order.
* A JS exception (the unguarded `JSON.parse`, or a field access on
  `undefined`) is modelled with `Except`; the `error` case carries the
  state at the moment of the throw together with the kind of error.
-/

/-- Outcome of a `new Date(..).toLocaleString` style host field access is
not modelled; the rendered history entry keeps the raw `completed_at`
value that the host formatter receives. -/
structure RenderedHistoryItem where
  thumbnail : String
  title : String
  completedAt : String
  linkHref : String
  deriving DecidableEq, Repr

/-- Content of the `historyList` container: either the empty-state
placeholder markup or one rendered entry per history item. -/
inductive HistoryView where
  | empty : HistoryView
  | entries : List RenderedHistoryItem → HistoryView
  deriving DecidableEq, Repr

/-- VideoInfo as delivered by `POST /api/video-info`. -/
structure VideoInfo where
  title : String
  duration : ℚ
  uploader : String
  view_count : ℚ
  thumbnail : Option String
  description : Option String
  deriving DecidableEq, Repr

/-- Result descriptor carried by a `completed` status event. -/
structure DownloadResult where
  id : String
  filename : String
  deriving DecidableEq, Repr

/-- A parsed WebSocket message. Every field of the JS object may be
absent, which `Option` records (`none` = the JS `undefined`). -/
structure StatusData where
  status : Option String := none
  progress : Option ℚ := none
  speed : Option ℚ := none
  eta : Option ℚ := none
  message : Option String := none
  result : Option DownloadResult := none
  error : Option String := none
  deriving DecidableEq, Repr

/-- One entry of the `GET /api/history` payload. -/
structure HistoryEntry where
  id : String
  title : String
  thumbnail : Option String
  completed_at : String
  deriving DecidableEq, Repr

/-- Parsed body of the `GET /api/history` response. -/
structure HistoryResponse where
  success : Bool
  data : List HistoryEntry
  deriving DecidableEq, Repr

/-- The DOM-visible state of the page together with the module-level
mutable variables of `app.js`. The three style mutations performed by
`setButtonLoading` (disabled, opacity, cursor) are all determined by one
boolean, recorded as `…BtnLoading`. -/
structure UIState where
  videoUrlValue : String
  previewHidden : Bool
  progressHidden : Bool
  completeHidden : Bool
  errorHidden : Bool
  progressBarWidth : String
  progressPercentText : String
  progressSpeedText : String
  progressEtaText : String
  progressMessageText : String
  completeFilenameText : String
  downloadFileHref : String
  downloadFileDownload : String
  errorMessageText : String
  historyView : HistoryView
  currentVideoInfo : Option VideoInfo
  currentDownloadId : Option String
  fetchInfoBtnLoading : Bool
  downloadBtnLoading : Bool
  deriving DecidableEq, Repr

/-- Host calls issued by the controller: the three `fetch` targets and
the body each one carries. Timer scheduling of the reconnect policy is
modelled separately by the channel state machine below. -/
inductive Effect where
  | fetchInfoRequest : String → Effect
  | downloadRequest : String → String → Bool → String → Effect
  | historyRequest : Effect
  deriving DecidableEq, Repr

/-- Kinds of JS exceptions the script can raise. -/
inductive JsError where
  | parseError : JsError
  | typeError : JsError
  deriving DecidableEq, Repr

/-- Math.floor on a rational: the greatest integer below. -/
def mathFloor (q : ℚ) : ℤ := ⌊q⌋

/-- ECMAScript truncation toward zero, used by the `%` operator. -/
def jsTrunc (q : ℚ) : ℤ := if 0 ≤ q then mathFloor q else -(mathFloor (-q))

/-- ECMAScript `%`: remainder with the sign of the dividend,
`x - m * trunc(x / m)`. -/
def jsMod (x m : ℚ) : ℚ := x - m * (jsTrunc (x / m) : ℤ)

/-- Math.round: nearest integer, ties toward positive infinity. -/
def jsRound (q : ℚ) : ℤ := mathFloor (q + 1 / 2)

/-- JS `v || 0` on a possibly-absent number: `undefined` and `0` are
falsy and give the default `0`; every other number is returned. -/
def orZero (x : Option ℚ) : ℚ :=
  match x with
  | none => 0
  | some v => if v = 0 then 0 else v

/-- JS `s || d` on a possibly-absent string: `undefined` and the empty
string are falsy and give the default. -/
def orDefault (x : Option String) (d : String) : String :=
  match x with
  | none => d
  | some s => if s = "" then d else s

/-- String.prototype.trim: the string with leading and trailing
whitespace removed. -/
def jsTrim (s : String) : String :=
  String.mk
    (((s.data.dropWhile Char.isWhitespace).reverse.dropWhile
        Char.isWhitespace).reverse)

/-- Assigning a possibly-`undefined` JS string to `textContent`:
`undefined` is stringified. -/
def jsTextOf (x : Option String) : String :=
  match x with
  | none => "undefined"
  | some s => s

/-- Number.prototype.toFixed(2): nearest multiple of 1/100, ties toward
the larger candidate, printed with exactly two fraction digits. -/
def toFixed2 (x : ℚ) : String :=
  let n : ℤ := mathFloor (x * 100 + 1 / 2)
  let sign := if n < 0 then "-" else ""
  let m := n.natAbs
  let frac := m % 100
  sign ++ toString (m / 100) ++ "." ++
    (if frac < 10 then "0" ++ toString frac else toString frac)

/-- formatSpeed (app.js lines 399-403): bytes/sec to a `MB/s` string;
a falsy (absent/zero) speed renders as `0 MB/s`. -/
def formatSpeed (bytesPerSecond : ℚ) : String :=
  if bytesPerSecond = 0 then "0 MB/s"
  else toFixed2 (bytesPerSecond / (1024 * 1024)) ++ " MB/s"

/-- formatEta (app.js lines 408-418): seconds to a Japanese
minutes/seconds string; a falsy (absent/zero) eta renders as `-- 残り`. -/
def formatEta (seconds : ℚ) : String :=
  if seconds = 0 then "-- 残り"
  else
    let mins := mathFloor (seconds / 60)
    let secs := mathFloor (jsMod seconds 60)
    if 0 < mins then toString mins ++ "分" ++ toString secs ++ "秒 残り"
    else toString secs ++ "秒 残り"

example : jsRound (427 / 10) = 43 := by norm_num [jsRound, mathFloor]
example : formatEta 0 = "-- 残り" := by decide
example : formatSpeed 0 = "0 MB/s" := by decide

/-- The two buttons whose loading style `setButtonLoading` toggles. -/
inductive ButtonId where
  | fetchInfo : ButtonId
  | download : ButtonId
  deriving DecidableEq, Repr

/-- setButtonLoading (app.js lines 366-376): disabled/opacity/cursor are
all functions of the one `isLoading` flag, recorded as a boolean. -/
def setButtonLoading (st : UIState) (button : ButtonId) (isLoading : Bool) : UIState :=
  match button with
  | ButtonId.fetchInfo => { st with fetchInfoBtnLoading := isLoading }
  | ButtonId.download => { st with downloadBtnLoading := isLoading }

/-- hideAllSections (app.js lines 345-350): adds the `hidden` class to
the preview, progress, complete and error sections. -/
def hideAllSections (st : UIState) : UIState :=
  { st with previewHidden := true, progressHidden := true,
            completeHidden := true, errorHidden := true }

/-- showError (app.js lines 336-340): hides all sections, reveals the
error section and writes the message into it. -/
def showError (st : UIState) (message : Option String) : UIState :=
  let st := hideAllSections st
  { st with errorHidden := false, errorMessageText := jsTextOf message }

/-- updateProgress (app.js lines 237-246): rounds the (defaulted)
progress, formats the (defaulted) speed and eta, and writes the bar
width, percent text, speed text and eta text. -/
def updateProgress (st : UIState) (data : StatusData) : UIState :=
  let progress := jsRound (orZero data.progress)
  let speed := formatSpeed (orZero data.speed)
  let eta := formatEta (orZero data.eta)
  { st with progressBarWidth := toString progress ++ "%",
            progressPercentText := toString progress ++ "%",
            progressSpeedText := speed,
            progressEtaText := eta }

/-- handleDownloadComplete (app.js lines 251-263): shows only the
complete section, fills the filename and file link from the result,
records the download id, and calls `loadHistory()` (one history fetch). -/
def handleDownloadComplete (st : UIState) (result : DownloadResult) :
    UIState × List Effect :=
  let st := hideAllSections st
  let st := { st with completeHidden := false,
                      completeFilenameText := result.filename,
                      downloadFileHref :=
                        ("/api/downloads/") ++ result.id ++ ("/file"),
                      downloadFileDownload := result.filename,
                      currentDownloadId := some result.id }
  (st, [Effect.historyRequest])

/-- handleWebSocketMessage (app.js lines 110-120): dispatch on the
`status` field. A `completed` event without a `result` object throws a
TypeError when `result.filename` is read, after `handleDownloadComplete`
has already hidden the sections and revealed the complete one; the error
case carries that partial state. Any other status falls through the
if-chain and changes nothing. -/
def handleWebSocketMessage (st : UIState) (data : StatusData) :
    Except (UIState × JsError) (UIState × List Effect) :=
  if data.status = some ("downloading") then
    Except.ok (updateProgress st data, [])
  else if data.status = some ("finished") then
    Except.ok ({ st with progressMessageText :=
                  orDefault data.message ("ファイルを処理中...") }, [])
  else if data.status = some ("completed") then
    match data.result with
    | some r => Except.ok (handleDownloadComplete st r)
    | none =>
        Except.error ({ hideAllSections st with completeHidden := false },
                      JsError.typeError)
  else if data.status = some ("error") then
    Except.ok (showError st data.error, [])
  else
    Except.ok (st, [])

/-- The `websocket.onmessage` handler (app.js lines 92-95): `JSON.parse`
is applied unguarded, so a parse failure raises out of the handler with
the state untouched and `handleWebSocketMessage` is never invoked; a
parsed payload is passed straight to the dispatch. The input is the
outcome of the host `JSON.parse` call. -/
def websocketOnMessage (st : UIState)
    (parsed : Except JsError StatusData) :
    Except (UIState × JsError) (UIState × List Effect) :=
  match parsed with
  | Except.error e => Except.error (st, e)
  | Except.ok d => handleWebSocketMessage st d

/-- handleFetchInfo (app.js lines 125-160), up to the `fetch` call: an
empty trimmed URL shows the validation message and returns without any
network request; otherwise the button enters its loading state, the
sections are hidden, and one `POST /api/video-info` request is issued. -/
def handleFetchInfo (st : UIState) : UIState × List Effect :=
  let url := jsTrim st.videoUrlValue
  if url = "" then
    (showError st (some ("URLを入力してください")), [])
  else
    let st := setButtonLoading st ButtonId.fetchInfo true
    let st := hideAllSections st
    (st, [Effect.fetchInfoRequest url])

/-- One radio button of the `formatType` group. -/
structure FormatRadio where
  value : String
  checked : Bool
  deriving DecidableEq, Repr

/-- The quality-selection controls read by `handleDownload`. -/
structure FormatSelection where
  formatTypeRadios : List FormatRadio
  videoQualityValue : String
  audioQualityValue : String
  deriving DecidableEq, Repr

/-- getSelectedFormatType (app.js lines 438-445): the value of the first
checked radio, defaulting to `video`. -/
def getSelectedFormatType (radios : List FormatRadio) : String :=
  match radios.find? (fun r => r.checked) with
  | some r => r.value
  | none => "video"

/-- handleDownload (app.js lines 180-232), up to the `fetch` call: an
empty trimmed URL shows the validation message and returns without any
network request; otherwise the button enters its loading state, only the
progress section is shown, the progress display is reset with
`updateProgress({progress: 0, speed: 0, eta: 0})`, the quality settings
are read, and one `POST /api/download` request is issued. -/
def handleDownload (st : UIState) (sel : FormatSelection) :
    UIState × List Effect :=
  let url := jsTrim st.videoUrlValue
  if url = "" then
    (showError st (some ("URLを入力してください")), [])
  else
    let st := setButtonLoading st ButtonId.download true
    let st := hideAllSections st
    let st := { st with progressHidden := false }
    let st := updateProgress st
      { progress := some 0, speed := some 0, eta := some 0 }
    let formatType := getSelectedFormatType sel.formatTypeRadios
    let quality :=
      if formatType = "video" then sel.videoQualityValue else "best"
    let audioOnly : Bool := formatType = "audio"
    let audioQuality :=
      if formatType = "audio" then sel.audioQualityValue else "192"
    (st, [Effect.downloadRequest url quality audioOnly audioQuality])

/-- createHistoryItem (app.js lines 299-322): the rendered markup of one
entry (thumbnail with placeholder fallback, title, the `completed_at`
value handed to the host date formatter, and the click target). -/
def createHistoryItem (item : HistoryEntry) : RenderedHistoryItem :=
  { thumbnail := orDefault item.thumbnail
      ("https://via.placeholder.com/640x360?text=No+Thumbnail"),
    title := item.title,
    completedAt := item.completed_at,
    linkHref := ("/api/downloads/") ++ item.id ++ ("/file") }

/-- displayHistory (app.js lines 287-294): clears the container
(`innerHTML = ''`) and appends one rendered item per entry, so the new
list wholly replaces whatever was rendered before. -/
def displayHistory (st : UIState) (history : List HistoryEntry) : UIState :=
  { st with historyView := HistoryView.entries (history.map createHistoryItem) }

/-- displayEmptyHistory (app.js lines 327-331): replaces the container
content with the empty-state placeholder. -/
def displayEmptyHistory (st : UIState) : UIState :=
  { st with historyView := HistoryView.empty }

/-- loadHistory response processing (app.js lines 268-282): `none` is a
fetch/parse failure caught by the `catch` block; a response renders the
entries when `success` holds and the list is non-empty, and the
placeholder otherwise. -/
def loadHistoryResult (st : UIState) (resp : Option HistoryResponse) : UIState :=
  match resp with
  | none => displayEmptyHistory st
  | some r =>
      if r.success = true ∧ 0 < r.data.length then displayHistory st r.data
      else displayEmptyHistory st

/-!
Reconnection policy (app.js lines 82-105). `initWebSocket` constructs a
socket whose `onclose` handler runs `setTimeout(initWebSocket, 3000)`.
The event-loop view of this policy: a socket object fires `close` at
most once, each such close schedules exactly one 3000 ms timer, and a
firing timer constructs one fresh socket. The machine counts sockets
whose `onclose` has not fired yet and timers that are scheduled but have
not fired yet; each step returns the delays of the timers it schedules.
-/

/-- Counters of the reconnection machine: sockets whose `onclose` has
not yet fired, and scheduled reconnection timers that have not yet
fired. -/
structure ChannelState where
  liveSockets : ℕ
  pendingReconnects : ℕ
  deriving DecidableEq, Repr

/-- State after the page-load `initWebSocket()` call: one socket, no
pending reconnection timer. -/
def chanInit : ChannelState := { liveSockets := 1, pendingReconnects := 0 }

/-- Event-loop occurrences that drive the reconnection machine. -/
inductive ChanEvent where
  | close : ChanEvent
  | timerFire : ChanEvent
  deriving DecidableEq, Repr

/-- One event-loop step. A `close` of a live socket runs the `onclose`
handler: the socket is spent and exactly one 3000 ms reconnection timer
is scheduled. A firing timer runs `initWebSocket`, constructing one
fresh socket. Events with no live socket / no pending timer cannot occur
and change nothing. -/
def chanStep (s : ChannelState) : ChanEvent → ChannelState × List ℕ
  | ChanEvent.close =>
      if 0 < s.liveSockets then
        ({ liveSockets := s.liveSockets - 1,
           pendingReconnects := s.pendingReconnects + 1 }, [3000])
      else (s, [])
  | ChanEvent.timerFire =>
      if 0 < s.pendingReconnects then
        ({ liveSockets := s.liveSockets + 1,
           pendingReconnects := s.pendingReconnects - 1 }, [])
      else (s, [])

/-- Run the reconnection machine over a list of event-loop occurrences,
collecting every scheduled timer delay in order. -/
def chanRun (s : ChannelState) : List ChanEvent → ChannelState × List ℕ
  | [] => (s, [])
  | e :: es =>
      let step := chanStep s e
      let rest := chanRun step.1 es
      (rest.1, step.2 ++ rest.2)

/-- A concrete page state used to instantiate the universally quantified
theorems below. -/
def uiState0 : UIState :=
  { videoUrlValue := "",
    previewHidden := true, progressHidden := true,
    completeHidden := true, errorHidden := true,
    progressBarWidth := "0%", progressPercentText := "0%",
    progressSpeedText := "0 MB/s", progressEtaText := "-- 残り",
    progressMessageText := "", completeFilenameText := "",
    downloadFileHref := "", downloadFileDownload := "",
    errorMessageText := "", historyView := HistoryView.empty,
    currentVideoInfo := none, currentDownloadId := none,
    fetchInfoBtnLoading := false, downloadBtnLoading := false }

/-- The `downloading` event of the spec scenario:
`{progress: 42.7, speed: 2097152, eta: 75}`. -/
def scenarioDownloadingEvent : StatusData :=
  { status := some ("downloading"), progress := some (427 / 10),
    speed := some 2097152, eta := some 75 }

lemma formatSpeed_scenario : formatSpeed 2097152 = "2.00 MB/s" := by
  have hfloor : mathFloor ((2097152 : ℚ) / (1024 * 1024) * 100 + 1 / 2) = 200 := by
    norm_num [mathFloor]
  have hne : (2097152 : ℚ) ≠ 0 := by norm_num
  simp only [formatSpeed, toFixed2, hfloor, if_neg hne]
  decide

lemma formatEta_scenario : formatEta 75 = "1分15秒 残り" := by
  have htr : jsTrunc ((75 : ℚ) / 60) = 1 := by
    norm_num [jsTrunc, mathFloor]
  have hmod : jsMod 75 60 = 15 := by
    rw [jsMod, htr]; norm_num
  have hmins : mathFloor ((75 : ℚ) / 60) = 1 := by norm_num [mathFloor]
  have hsecs : mathFloor (jsMod 75 60) = 15 := by
    rw [hmod]; norm_num [mathFloor]
  have hne : (75 : ℚ) ≠ 0 := by norm_num
  simp only [formatEta, hmins, hsecs, if_neg hne]
  decide

lemma jsRound_scenario : jsRound (427 / 10) = 43 := by
  norm_num [jsRound, mathFloor]

/-- C7: the `downloading` event `{progress: 42.7, speed: 2097152, eta: 75}`
renders progress bar width `43%`, percent text `43%`, speed `2.00 MB/s`
and eta `1分15秒 残り`. -/
theorem updateProgress_scenario_renders :
    (updateProgress uiState0 scenarioDownloadingEvent).progressBarWidth = "43%" ∧
    (updateProgress uiState0 scenarioDownloadingEvent).progressPercentText = "43%" ∧
    (updateProgress uiState0 scenarioDownloadingEvent).progressSpeedText = "2.00 MB/s" ∧
    (updateProgress uiState0 scenarioDownloadingEvent).progressEtaText = "1分15秒 残り" := by
  have hp : orZero (some (427 / 10 : ℚ)) = 427 / 10 := by norm_num [orZero]
  have hs : orZero (some (2097152 : ℚ)) = 2097152 := by norm_num [orZero]
  have he : orZero (some (75 : ℚ)) = 75 := by norm_num [orZero]
  simp only [updateProgress, scenarioDownloadingEvent, hp, hs, he,
    jsRound_scenario, formatSpeed_scenario, formatEta_scenario]
  refine ⟨?_, ?_, ?_, ?_⟩ <;> trivial

/-- C6: progress rendering is idempotent — applying `updateProgress`
twice with the same event gives exactly the state of applying it once;
no displayed value accumulates. -/
theorem updateProgress_idempotent (st : UIState) (d : StatusData) :
    updateProgress (updateProgress st d) d = updateProgress st d := rfl

lemma jsRound_zero : jsRound 0 = 0 := by norm_num [jsRound, mathFloor]

lemma orZero_none : orZero none = 0 := rfl

lemma orZero_some_zero : orZero (some 0) = 0 := by simp [orZero]

/-- C2: a `downloading` status event never throws in dispatch — it
yields an ordinary updated state via `updateProgress` — and each of the
progress, speed and eta fields defaults to zero when absent, rendering
the zero values `0%`, `0 MB/s` and `-- 残り`. -/
theorem downloading_never_throws_defaults (st : UIState) (d : StatusData)
    (h : d.status = some ("downloading")) :
    handleWebSocketMessage st d = Except.ok (updateProgress st d, []) ∧
    (d.progress = none →
      (updateProgress st d).progressBarWidth = "0%" ∧
      (updateProgress st d).progressPercentText = "0%") ∧
    (d.speed = none → (updateProgress st d).progressSpeedText = "0 MB/s") ∧
    (d.eta = none → (updateProgress st d).progressEtaText = "-- 残り") := by
  refine ⟨by simp [handleWebSocketMessage, h], ?_, ?_, ?_⟩
  · intro hp
    simp only [updateProgress, hp, orZero_none, jsRound_zero]
    exact ⟨by decide, by decide⟩
  · intro hs
    simp only [updateProgress, hs, orZero_none]
    decide
  · intro he
    simp only [updateProgress, he, orZero_none]
    decide

/-- Witness for C2 at the concrete event `{status: "downloading"}` with
all numeric fields absent, evaluated on the concrete page state. -/
theorem downloading_never_throws_defaults_witness :
    handleWebSocketMessage uiState0 { status := some ("downloading") } =
      Except.ok (updateProgress uiState0 { status := some ("downloading") }, []) ∧
    (updateProgress uiState0 { status := some ("downloading") }).progressPercentText = "0%" ∧
    (updateProgress uiState0 { status := some ("downloading") }).progressSpeedText = "0 MB/s" ∧
    (updateProgress uiState0 { status := some ("downloading") }).progressEtaText = "-- 残り" := by
  have h := downloading_never_throws_defaults uiState0
    { status := some ("downloading") } rfl
  exact ⟨h.1, (h.2.1 rfl).2, h.2.2.1 rfl, h.2.2.2 rfl⟩

/-- C3: an event whose status is none of the four recognized values is
silently ignored — the dispatch returns the state unchanged, raises
nothing and issues no effect. -/
theorem unknown_status_ignored (st : UIState) (d : StatusData)
    (h1 : d.status ≠ some ("downloading"))
    (h2 : d.status ≠ some ("finished"))
    (h3 : d.status ≠ some ("completed"))
    (h4 : d.status ≠ some ("error")) :
    handleWebSocketMessage st d = Except.ok (st, []) := by
  simp [handleWebSocketMessage, h1, h2, h3, h4]

/-- Witness for C3 at the concrete unrecognized status `paused`. -/
theorem unknown_status_ignored_witness :
    handleWebSocketMessage uiState0 { status := some ("paused") } =
      Except.ok (uiState0, []) :=
  unknown_status_ignored uiState0 { status := some ("paused") }
    (by decide) (by decide) (by decide) (by decide)

/-- C10: a channel message whose payload fails `JSON.parse` raises out
of the `onmessage` handler with the page state untouched, and only a
successfully parsed payload ever reaches the status dispatch. -/
theorem malformed_payload_raises (st : UIState) :
    websocketOnMessage st (Except.error JsError.parseError) =
      Except.error (st, JsError.parseError) ∧
    (∀ d : StatusData,
      websocketOnMessage st (Except.ok d) = handleWebSocketMessage st d) :=
  ⟨rfl, fun _ => rfl⟩

/-- C5: a `completed` event carrying a result descriptor transitions the
page to the completed view (only the complete section visible), fills
the filename text and the file link derived from the id, records the
download id, and issues exactly one history reload. -/
theorem completed_event_transitions (st : UIState) (d : StatusData)
    (r : DownloadResult)
    (hs : d.status = some ("completed")) (hr : d.result = some r) :
    ∃ st2 : UIState,
      handleWebSocketMessage st d =
        Except.ok (st2, [Effect.historyRequest]) ∧
      st2.previewHidden = true ∧ st2.progressHidden = true ∧
      st2.errorHidden = true ∧ st2.completeHidden = false ∧
      st2.completeFilenameText = r.filename ∧
      st2.downloadFileDownload = r.filename ∧
      st2.downloadFileHref = ("/api/downloads/") ++ r.id ++ ("/file") ∧
      st2.currentDownloadId = some r.id := by
  refine ⟨{ hideAllSections st with
              completeHidden := false,
              completeFilenameText := r.filename,
              downloadFileHref := ("/api/downloads/") ++ r.id ++ ("/file"),
              downloadFileDownload := r.filename,
              currentDownloadId := some r.id },
          ?_, rfl, rfl, rfl, rfl, rfl, rfl, rfl, rfl⟩
  simp [handleWebSocketMessage, hs, hr, handleDownloadComplete,
    hideAllSections]

/-- Witness for C5 at the scenario event
`{status: "completed", result: {id: "abc", filename: "video.mp4"}}`. -/
theorem completed_event_transitions_witness :
    ∃ st2 : UIState,
      handleWebSocketMessage uiState0
          { status := some ("completed"),
            result := some { id := "abc", filename := "video.mp4" } } =
        Except.ok (st2, [Effect.historyRequest]) ∧
      st2.previewHidden = true ∧ st2.progressHidden = true ∧
      st2.errorHidden = true ∧ st2.completeHidden = false ∧
      st2.completeFilenameText = "video.mp4" ∧
      st2.downloadFileDownload = "video.mp4" ∧
      st2.downloadFileHref = "/api/downloads/abc/file" ∧
      st2.currentDownloadId = some "abc" :=
  completed_event_transitions uiState0
    { status := some ("completed"),
      result := some { id := "abc", filename := "video.mp4" } }
    { id := "abc", filename := "video.mp4" } rfl rfl

/-- A concrete quality selection used to instantiate the theorems
below. -/
def formatSel0 : FormatSelection :=
  { formatTypeRadios :=
      [{ value := "video", checked := true },
       { value := "audio", checked := false }],
    videoQualityValue := "best",
    audioQualityValue := "192" }

/-- C4: with an empty (or whitespace-only) URL both `handleFetchInfo`
and `handleDownload` issue no network request and show the validation
message; outside the error view every piece of state keeps its value. -/
theorem empty_url_validation (st : UIState) (sel : FormatSelection)
    (h : jsTrim st.videoUrlValue = "") :
    handleFetchInfo st =
      (showError st (some ("URLを入力してください")), []) ∧
    handleDownload st sel =
      (showError st (some ("URLを入力してください")), []) ∧
    (showError st (some ("URLを入力してください"))).errorHidden = false ∧
    (showError st (some ("URLを入力してください"))).errorMessageText =
      "URLを入力してください" ∧
    (showError st (some ("URLを入力してください"))).videoUrlValue =
      st.videoUrlValue ∧
    (showError st (some ("URLを入力してください"))).progressBarWidth =
      st.progressBarWidth ∧
    (showError st (some ("URLを入力してください"))).progressPercentText =
      st.progressPercentText ∧
    (showError st (some ("URLを入力してください"))).progressSpeedText =
      st.progressSpeedText ∧
    (showError st (some ("URLを入力してください"))).progressEtaText =
      st.progressEtaText ∧
    (showError st (some ("URLを入力してください"))).progressMessageText =
      st.progressMessageText ∧
    (showError st (some ("URLを入力してください"))).completeFilenameText =
      st.completeFilenameText ∧
    (showError st (some ("URLを入力してください"))).downloadFileHref =
      st.downloadFileHref ∧
    (showError st (some ("URLを入力してください"))).downloadFileDownload =
      st.downloadFileDownload ∧
    (showError st (some ("URLを入力してください"))).historyView =
      st.historyView ∧
    (showError st (some ("URLを入力してください"))).currentVideoInfo =
      st.currentVideoInfo ∧
    (showError st (some ("URLを入力してください"))).currentDownloadId =
      st.currentDownloadId ∧
    (showError st (some ("URLを入力してください"))).fetchInfoBtnLoading =
      st.fetchInfoBtnLoading ∧
    (showError st (some ("URLを入力してください"))).downloadBtnLoading =
      st.downloadBtnLoading := by
  refine ⟨?_, ?_, rfl, rfl, rfl, rfl, rfl, rfl, rfl, rfl, rfl, rfl, rfl,
    rfl, rfl, rfl, rfl, rfl⟩
  · simp [handleFetchInfo, h]
  · simp [handleDownload, h]

/-- Witness for C4 on the concrete page state whose URL input is a
single space. -/
theorem empty_url_validation_witness :
    handleFetchInfo { uiState0 with videoUrlValue := " " } =
      (showError { uiState0 with videoUrlValue := " " }
        (some ("URLを入力してください")), []) ∧
    handleDownload { uiState0 with videoUrlValue := " " } formatSel0 =
      (showError { uiState0 with videoUrlValue := " " }
        (some ("URLを入力してください")), []) :=
  have h := empty_url_validation { uiState0 with videoUrlValue := " " }
    formatSel0 (by decide)
  ⟨h.1, h.2.1⟩

/-- C8: with a non-empty trimmed URL, `handleDownload` resets the
progress display to its zero renderings (`0%`, `0 MB/s`, `-- 残り`),
shows the progress section, and issues exactly the one download request
built from the current quality selection. -/
theorem download_resets_progress (st : UIState) (sel : FormatSelection)
    (h : jsTrim st.videoUrlValue ≠ "") :
    (handleDownload st sel).1.progressBarWidth = "0%" ∧
    (handleDownload st sel).1.progressPercentText = "0%" ∧
    (handleDownload st sel).1.progressSpeedText = "0 MB/s" ∧
    (handleDownload st sel).1.progressEtaText = "-- 残り" ∧
    (handleDownload st sel).1.progressHidden = false ∧
    (handleDownload st sel).2 =
      [Effect.downloadRequest (jsTrim st.videoUrlValue)
        (if getSelectedFormatType sel.formatTypeRadios = "video"
         then sel.videoQualityValue else "best")
        (decide (getSelectedFormatType sel.formatTypeRadios = "audio"))
        (if getSelectedFormatType sel.formatTypeRadios = "audio"
         then sel.audioQualityValue else "192")] := by
  simp only [handleDownload, if_neg h, updateProgress, orZero_some_zero,
    jsRound_zero]
  refine ⟨?_, ?_, ?_, ?_, ?_, ?_⟩ <;> trivial

/-- Witness for C8 on a concrete page state holding a URL. -/
theorem download_resets_progress_witness :
    (handleDownload { uiState0 with videoUrlValue := "https://youtu.be/x" }
      formatSel0).1.progressBarWidth = "0%" ∧
    (handleDownload { uiState0 with videoUrlValue := "https://youtu.be/x" }
      formatSel0).2 =
      [Effect.downloadRequest "https://youtu.be/x" "best" false "192"] := by
  have h := download_resets_progress
    { uiState0 with videoUrlValue := "https://youtu.be/x" } formatSel0
    (by decide)
  exact ⟨h.1, by simpa using h.2.2.2.2.2⟩

/-- C9: a failed history fetch or an empty (or unsuccessful) response
renders the empty-state placeholder; a successful non-empty response
renders exactly one entry per item; and the view rendered by a
`loadHistory` pass never depends on what was rendered before, so
repeated calls cannot duplicate entries. -/
theorem loadHistory_rendering (st st2 : UIState) (r : HistoryResponse) :
    (loadHistoryResult st none).historyView = HistoryView.empty ∧
    (r.success = false →
      (loadHistoryResult st (some r)).historyView = HistoryView.empty) ∧
    (r.data = [] →
      (loadHistoryResult st (some r)).historyView = HistoryView.empty) ∧
    (r.success = true → r.data ≠ [] →
      (loadHistoryResult st (some r)).historyView =
        HistoryView.entries (r.data.map createHistoryItem) ∧
      (r.data.map createHistoryItem).length = r.data.length) ∧
    (∀ resp : Option HistoryResponse,
      (loadHistoryResult (loadHistoryResult st2 resp) resp).historyView =
        (loadHistoryResult st resp).historyView) := by
  refine ⟨rfl, ?_, ?_, ?_, ?_⟩
  · intro hs
    simp [loadHistoryResult, displayEmptyHistory, hs]
  · intro hd
    simp [loadHistoryResult, displayEmptyHistory, hd]
  · intro hs hd
    have hl : 0 < r.data.length := List.length_pos.mpr hd
    refine ⟨?_, List.length_map r.data createHistoryItem⟩
    simp [loadHistoryResult, displayHistory, hs, hl]
  · intro resp
    cases resp with
    | none => rfl
    | some r2 =>
        by_cases hc : r2.success = true ∧ 0 < r2.data.length <;>
          simp [loadHistoryResult, displayHistory, displayEmptyHistory, hc]

/-- Witness for C9 at a concrete one-entry response. -/
theorem loadHistory_rendering_witness :
    (loadHistoryResult uiState0
      (some { success := true,
              data := [{ id := "abc", title := "Test",
                         thumbnail := none,
                         completed_at := "2024-01-01" }] })).historyView =
      HistoryView.entries
        [createHistoryItem
          { id := "abc", title := "Test", thumbnail := none,
            completed_at := "2024-01-01" }] :=
  ((loadHistory_rendering uiState0 uiState0
      { success := true,
        data := [{ id := "abc", title := "Test", thumbnail := none,
                   completed_at := "2024-01-01" }] }).2.2.2.1
    rfl (by decide)).1

lemma chanStep_keeps_inv (s : ChannelState) (e : ChanEvent)
    (h : s.liveSockets + s.pendingReconnects = 1) :
    (chanStep s e).1.liveSockets + (chanStep s e).1.pendingReconnects = 1 := by
  cases e with
  | close =>
      by_cases hl : 0 < s.liveSockets <;> simp [chanStep, hl] <;> omega
  | timerFire =>
      by_cases hp : 0 < s.pendingReconnects <;> simp [chanStep, hp] <;> omega

lemma chanStep_delays (s : ChannelState) (e : ChanEvent) :
    ∀ d ∈ (chanStep s e).2, d = 3000 := by
  cases e with
  | close => by_cases hl : 0 < s.liveSockets <;> simp [chanStep, hl]
  | timerFire =>
      by_cases hp : 0 < s.pendingReconnects <;> simp [chanStep, hp]

lemma chanRun_keeps_inv (es : List ChanEvent) :
    ∀ s : ChannelState, s.liveSockets + s.pendingReconnects = 1 →
      (chanRun s es).1.liveSockets + (chanRun s es).1.pendingReconnects = 1 ∧
      ∀ d ∈ (chanRun s es).2, d = 3000 := by
  induction es with
  | nil =>
      intro s h
      exact ⟨h, by simp [chanRun]⟩
  | cons e es ih =>
      intro s h
      have hstep := chanStep_keeps_inv s e h
      refine ⟨(ih _ hstep).1, ?_⟩
      intro d hd
      simp only [chanRun, List.mem_append] at hd
      cases hd with
      | inl hd => exact chanStep_delays s e d hd
      | inr hd => exact (ih _ hstep).2 d hd

/-- C1: from the page-load connection, over any event-loop history,
each close of a live socket schedules exactly one reconnection timer
with the fixed 3000 ms delay, every scheduled delay ever emitted is
3000 ms (no backoff growth, no retry cap), and at most one reconnection
timer is ever pending (repeated closes do not stack timers). -/
theorem reconnect_policy (es : List ChanEvent) :
    ((chanRun chanInit es).1.liveSockets +
      (chanRun chanInit es).1.pendingReconnects = 1) ∧
    ((chanRun chanInit es).1.pendingReconnects ≤ 1) ∧
    (∀ d ∈ (chanRun chanInit es).2, d = 3000) ∧
    (∀ s : ChannelState, 0 < s.liveSockets →
      chanStep s ChanEvent.close =
        ({ liveSockets := s.liveSockets - 1,
           pendingReconnects := s.pendingReconnects + 1 }, [3000])) := by
  have h := chanRun_keeps_inv es chanInit rfl
  refine ⟨h.1, by omega, h.2, ?_⟩
  intro s hs
  simp [chanStep, hs]

/-- Witness for C1 over the concrete history close, reconnect, close. -/
theorem reconnect_policy_witness :
    ((chanRun chanInit
        [ChanEvent.close, ChanEvent.timerFire, ChanEvent.close]).1.pendingReconnects ≤ 1) ∧
    ((chanRun chanInit
        [ChanEvent.close, ChanEvent.timerFire, ChanEvent.close]).2 =
      [3000, 3000]) ∧
    chanStep chanInit ChanEvent.close =
      ({ liveSockets := 0, pendingReconnects := 1 }, [3000]) := by
  have h := reconnect_policy [ChanEvent.close, ChanEvent.timerFire, ChanEvent.close]
  exact ⟨h.2.1, by decide, h.2.2.2 chanInit (by decide)⟩
